import Mathlib

/-!
Shallow embedding of the dentist-server clinic backend (Express + Mongoose
route handlers) and verification of its specification claims.

The route modules embedded here:
  * src/routes/appointments.js  (appointment CRUD with schedule validation)
  * the services routes          (service CRUD with name uniqueness)
  * the payments routes          (payment creation and status updates)
  * the reminders routes         (reminder creation / mark-read / delete)
  * the users routes             (user CRUD and PatientInfo create/upsert)
  * src/routes/dashboard.js      (reporting aggregations)

MongoDB object ids are modelled as `Nat`; JavaScript `Date` values are
modelled by the wall-clock components the code reads (`getDay`, `getHours`);
monetary amounts are modelled as exact rationals.  Fallible handlers return
`Except Err` results, and mutating route handlers additionally return the
(possibly updated) collection they act on, so that an early `return` in the
JavaScript corresponds to returning the collection unchanged.
-/

namespace DentistServer

/-- Actor roles: the `role` field of the User model. -/
inductive Role where
  | patient
  | doctor
  | assistant
deriving DecidableEq, Repr

/-- Staff check used throughout the routes:
`['doctor', 'assistant'].includes(req.user.role)`. -/
def Role.isStaff : Role → Bool
  | .doctor => true
  | .assistant => true
  | .patient => false

/-- The authenticated caller (`req.user`), produced by the auth middleware. -/
structure Actor where
  id : Nat
  role : Role
deriving DecidableEq, Repr

/-- Error taxonomy of the route handlers.  Each constructor corresponds to a
family of early-return responses in the JavaScript:
`validationFailed` = 400 from express-validator / missing required fields,
`invalidReference` = 400 "Selected service is not available",
`invalidSchedule` = 400 working-hours rejections,
`conflict` = 400 duplicate-name / already-exists,
`forbidden` = 403, `notFound` = 404. -/
inductive Err where
  | validationFailed
  | invalidReference
  | invalidSchedule
  | conflict
  | forbidden
  | notFound
deriving DecidableEq, Repr

/-- Wall-clock components of a JavaScript `Date`, exactly the two accessors
the appointment routes read: `getDay()` (0 = Sunday .. 6 = Saturday) and
`getHours()` (0..23). -/
structure JSDate where
  getDay : Nat
  getHours : Nat
deriving DecidableEq, Repr

/-- Appointment statuses (`enum: ['scheduled', 'completed', 'cancelled']`). -/
inductive AppStatus where
  | scheduled
  | completed
  | cancelled
deriving DecidableEq, Repr

/-- Payment statuses (`enum: ['pending', 'completed', 'failed']`). -/
inductive PayStatus where
  | pending
  | completed
  | failed
deriving DecidableEq, Repr

/-- A stored Appointment document (models/Appointment.js). -/
structure Appointment where
  user : Nat
  doctor : Nat
  date : JSDate
  status : AppStatus
  notes : String
  service : Nat
deriving DecidableEq, Repr

/-- A stored Service document (models/services.js), with its document id. -/
structure Service where
  id : Nat
  name : String
  description : String
  duration : Nat
  price : ℚ
  isActive : Bool
deriving DecidableEq, Repr

/-- A stored Payment document (src/models/Payment.js). -/
structure Payment where
  user : Nat
  appointment : Nat
  amount : ℚ
  status : PayStatus
  paymentMethod : String
deriving DecidableEq, Repr

/-! ## Temporal validity (working-hours) check

From POST /api/appointments (appointments.js lines 134-151) and, verbatim
duplicated, PUT /api/appointments/:id (lines 212-231):

    const dayOfWeek = appointmentDate.getDay();
    const hour = appointmentDate.getHours();
    if (![6, 0, 1, 2, 3].includes(dayOfWeek)) { ... 400 ... }
    if (hour < 8 || hour >= 18) { ... 400 ... }
-/

/-- The working-day whitelist `[6, 0, 1, 2, 3]`
(Saturday, Sunday, Monday, Tuesday, Wednesday). -/
def workingDays : List Nat := [6, 0, 1, 2, 3]

/-- The working-hours check shared (by textual duplication in the source)
between appointment creation and appointment update. -/
def checkWorkingHours (d : JSDate) : Except Err Unit :=
  if d.getDay ∉ workingDays then
    .error .invalidSchedule
  else if d.getHours < 8 ∨ 18 ≤ d.getHours then
    .error .invalidSchedule
  else
    .ok ()

/-! ## Appointment routes (src/routes/appointments.js)

The express-validator chain `validateAppointment` requires `user`, `doctor`,
`date` and `service` on every POST and PUT body (none of them is marked
`.optional()`), while `status` and `notes` are optional.  A request body is
therefore modelled twice: `RawAppointmentBody` with every field optional
(what the client sent) and `AppointmentBody` (what survives validation). -/

/-- A client-supplied appointment request body, before validation. -/
structure RawAppointmentBody where
  user : Option Nat
  doctor : Option Nat
  date : Option JSDate
  service : Option Nat
  status : Option AppStatus
  notes : Option String
deriving DecidableEq, Repr

/-- A validated appointment request body: `user`, `doctor`, `date`,
`service` are present; `status` and `notes` stay optional. -/
structure AppointmentBody where
  user : Nat
  doctor : Nat
  date : JSDate
  service : Nat
  status : Option AppStatus
  notes : Option String
deriving DecidableEq, Repr

/-- The `validateAppointment` middleware (appointments.js lines 17-24):
fails when any of the four required fields is absent (an absent field is not
a valid Mongo id / ISO-8601 date); well-formedness of present values is
carried by the types. -/
def validateAppointment (b : RawAppointmentBody) : Option AppointmentBody :=
  match b.user, b.doctor, b.date, b.service with
  | some u, some doc, some dt, some sv =>
    some { user := u, doctor := doc, date := dt, service := sv,
           status := b.status, notes := b.notes }
  | _, _, _, _ => none

/-- `Service.findById` over the services collection. -/
def findService (services : List Service) (id : Nat) : Option Service :=
  services.find? (fun s => s.id == id)

/-- POST /api/appointments (lines 115-167): validation, patient
anti-impersonation forcing, active-service check, working-hours check,
then the document is saved (status defaults to `scheduled`). -/
def postAppointment (actor : Actor) (raw : RawAppointmentBody)
    (services : List Service) : Except Err Appointment :=
  match validateAppointment raw with
  | none => .error .validationFailed
  | some b0 =>
    let b := if actor.role = .patient then { b0 with user := actor.id } else b0
    match findService services b.service with
    | none => .error .invalidReference
    | some s =>
      if s.isActive = false then .error .invalidReference
      else
        match checkWorkingHours b.date with
        | .error e => .error e
        | .ok _ =>
          .ok { user := b.user, doctor := b.doctor, date := b.date,
                status := b.status.getD .scheduled, notes := b.notes.getD "",
                service := b.service }

/-- `Object.assign(appointment, req.body)` (line 234): every key present in
the validated body overwrites the stored field; absent optional keys
(`status`, `notes`) leave the stored value untouched. -/
def applyAssign (a : Appointment) (b : AppointmentBody) : Appointment :=
  { user := b.user, doctor := b.doctor, date := b.date, service := b.service,
    status := match b.status with | some st => st | none => a.status,
    notes := match b.notes with | some n => n | none => a.notes }

/-- The conditional service re-validation of PUT /api/appointments/:id
(lines 204-210): only runs when the supplied service id differs from the
stored one. -/
def putServiceCheck (appt : Appointment) (b : AppointmentBody)
    (services : List Service) : Except Err Unit :=
  if b.service ≠ appt.service then
    match findService services b.service with
    | none => .error .invalidReference
    | some s => if s.isActive = false then .error .invalidReference else .ok ()
  else .ok ()

/-- PUT /api/appointments/:id (lines 175-247).  Returns the response
together with the (possibly updated) appointments collection; an early
`return` in the handler corresponds to returning the collection unchanged.
Since `validateAppointment` forces `date` to be present, the working-hours
check runs on every successful validation. -/
def putAppointment (actor : Actor) (appts : List (Nat × Appointment))
    (id : Nat) (raw : RawAppointmentBody) (services : List Service) :
    Except Err Appointment × List (Nat × Appointment) :=
  match validateAppointment raw with
  | none => (.error .validationFailed, appts)
  | some b =>
    match appts.find? (fun p => p.1 == id) with
    | none => (.error .notFound, appts)
    | some (_, appt) =>
      if ¬ (actor.role = .doctor ∨ actor.role = .assistant) ∧
          ¬ (appt.user = actor.id) then
        (.error .forbidden, appts)
      else if actor.role = .patient ∧ b.status.isSome ∧
          b.status ≠ some appt.status then
        (.error .forbidden, appts)
      else
        match putServiceCheck appt b services with
        | .error e => (.error e, appts)
        | .ok _ =>
          match checkWorkingHours b.date with
          | .error e => (.error e, appts)
          | .ok _ =>
            let a' := applyAssign appt b
            (.ok a', appts.map (fun p => if p.1 = id then (id, a') else p))

/-- DELETE /api/appointments/:id (lines 255-274): only the owning patient
(by id equality, regardless of role) may cancel. -/
def deleteAppointment (actor : Actor) (appts : List (Nat × Appointment))
    (id : Nat) : Except Err Unit × List (Nat × Appointment) :=
  match appts.find? (fun p => p.1 == id) with
  | none => (.error .notFound, appts)
  | some (_, appt) =>
    if appt.user ≠ actor.id then (.error .forbidden, appts)
    else (.ok (), appts.filter (fun p => !(p.1 == id)))

/-! ## Payment routes -/

/-- A client-supplied payment request body, before validation. -/
structure RawPaymentBody where
  user : Option Nat
  appointment : Option Nat
  amount : Option ℚ
  status : Option PayStatus
  paymentMethod : Option String
deriving DecidableEq, Repr

/-- A validated payment body: `user`, `appointment`, `amount` present with
`amount ≥ 0`; `status` and `paymentMethod` optional. -/
structure PaymentBody where
  user : Nat
  appointment : Nat
  amount : ℚ
  status : Option PayStatus
  paymentMethod : Option String
deriving DecidableEq, Repr

/-- The `validatePayment` middleware: `user`, `appointment` and a
non-negative `amount` are required; `status` (enum) and `paymentMethod`
are optional. -/
def validatePayment (b : RawPaymentBody) : Option PaymentBody :=
  match b.user, b.appointment, b.amount with
  | some u, some ap, some am =>
    if am < 0 then none
    else some { user := u, appointment := ap, amount := am,
                status := b.status, paymentMethod := b.paymentMethod }
  | _, _, _ => none

/-- POST /api/payments: validation, patient anti-impersonation forcing,
then the document is saved (status defaults to `pending`). -/
def postPayment (actor : Actor) (raw : RawPaymentBody) : Except Err Payment :=
  match validatePayment raw with
  | none => .error .validationFailed
  | some b0 =>
    let b := if actor.role = .patient then { b0 with user := actor.id } else b0
    .ok { user := b.user, appointment := b.appointment, amount := b.amount,
          status := b.status.getD .pending,
          paymentMethod := b.paymentMethod.getD "" }

/-! ## Service routes

The services route module destructures `{ name, description, duration,
price, isActive }` from the body and uses JavaScript truthiness on `name`,
`duration`, `price` (so an empty name or a zero duration/price counts as
absent) and `!== undefined` checks on `description`, `price`, `isActive`
for the partial update. -/

/-- JS truthiness of an optional string: present and non-empty. -/
def truthyStr (o : Option String) : Bool :=
  match o with
  | some s => decide (s ≠ "")
  | none => false

/-- JS truthiness of an optional natural number: present and non-zero. -/
def truthyNat (o : Option Nat) : Bool :=
  match o with
  | some n => decide (n ≠ 0)
  | none => false

/-- JS truthiness of an optional rational: present and non-zero. -/
def truthyRat (o : Option ℚ) : Bool :=
  match o with
  | some q => decide (q ≠ 0)
  | none => false

/-- A client-supplied service request body. -/
structure ServiceBody where
  name : Option String
  description : Option String
  duration : Option Nat
  price : Option ℚ
  isActive : Option Bool
deriving DecidableEq, Repr

/-- `Service.findOne({ name })`: first stored service with that exact
(case-sensitive) name. -/
def findServiceByName (store : List Service) (n : String) : Option Service :=
  store.find? (fun s => s.name == n)

/-- POST /api/services/create: doctor-gated (`authorize('doctor')`), then
`if (!name || !duration || !price)` validation, then the duplicate-name
check `Service.findOne({ name })`, then the document is saved.  The new
document's `isActive` default is modelled from the spec ("active flag",
services start active): the Mongoose services model file is not among the
source files. -/
def createService (actor : Actor) (store : List Service) (b : ServiceBody)
    (newId : Nat) : Except Err Service × List Service :=
  if ¬ (actor.role = .doctor) then (.error .forbidden, store)
  else if truthyStr b.name = false ∨ truthyNat b.duration = false ∨
      truthyRat b.price = false then
    (.error .validationFailed, store)
  else
    match findServiceByName store (b.name.getD "") with
    | some _ => (.error .conflict, store)
    | none =>
      let s : Service :=
        { id := newId, name := b.name.getD "",
          description := b.description.getD "",
          duration := b.duration.getD 0, price := b.price.getD 0,
          isActive := true }
      (.ok s, store ++ [s])

/-- PUT /api/services/edit-service/:id: doctor-gated, `findById`, then the
rename-uniqueness check `if (name && name !== service.name)` against
`Service.findOne({ name })`, then the field-wise partial update. -/
def editService (actor : Actor) (store : List Service) (id : Nat)
    (b : ServiceBody) : Except Err Service × List Service :=
  if ¬ (actor.role = .doctor) then (.error .forbidden, store)
  else
    match store.find? (fun s => s.id == id) with
    | none => (.error .notFound, store)
    | some s =>
      let s' : Service :=
        { s with
          name := if truthyStr b.name then b.name.getD s.name else s.name,
          description :=
            match b.description with | some d => d | none => s.description,
          duration := if truthyNat b.duration then b.duration.getD s.duration
            else s.duration,
          price := match b.price with | some p => p | none => s.price,
          isActive := match b.isActive with | some f => f | none => s.isActive }
      if truthyStr b.name = true ∧ b.name ≠ some s.name then
        match findServiceByName store (b.name.getD "") with
        | some _ => (.error .conflict, store)
        | none => (.ok s', store.map (fun t => if t.id = id then s' else t))
      else (.ok s', store.map (fun t => if t.id = id then s' else t))

/-! ## PatientInfo routes (the users route module) -/

/-- The nested `emergencyContact` sub-document of the PatientInfo schema. -/
structure EmergencyContact where
  name : Option String
  phone : Option String
  relationship : Option String
deriving DecidableEq, Repr

/-- A stored PatientInfo document (the patientInfo model).  `lastVisit`
defaults to `null`; timestamps are modelled as `Nat`. -/
structure PatientInfo where
  patientId : Nat
  age : Option Nat
  gender : Option String
  address : Option String
  bloodType : Option String
  medicalHistory : Option String
  allergies : Option String
  medications : Option String
  emergencyContact : Option EmergencyContact
  lastVisit : Option Nat
deriving DecidableEq, Repr

/-- A client-supplied patient-info request body.  `lastVisit` can be sent
by the client but the handler never reads it; `updateLastVisit` is the
explicit flag the handler does read. -/
structure PatientInfoBody where
  patientId : Option Nat
  age : Option Nat
  gender : Option String
  address : Option String
  bloodType : Option String
  medicalHistory : Option String
  allergies : Option String
  medications : Option String
  emergencyContact : Option EmergencyContact
  updateLastVisit : Bool
  lastVisit : Option Nat
deriving DecidableEq, Repr

/-- A fresh PatientInfo document holding only the owning reference
(`new PatientInfo({ patientId })`); every optional field takes its schema
default (`lastVisit: null`). -/
def emptyPatientInfo (target : Nat) : PatientInfo :=
  { patientId := target, age := none, gender := none, address := none,
    bloodType := none, medicalHistory := none, allergies := none,
    medications := none, emergencyContact := none, lastVisit := none }

/-- `PatientInfo.findOne({ patientId })`. -/
def findPatientInfo (store : List PatientInfo) (target : Nat) :
    Option PatientInfo :=
  store.find? (fun p => p.patientId == target)

/-- POST /api/users/patient-info (lines 166-215): target defaults to the
caller (`patientId || req.user._id`), owner-or-staff gate, then strict
create — `Conflict` when a record already exists. -/
def createPatientInfo (actor : Actor) (store : List PatientInfo)
    (b : PatientInfoBody) : Except Err PatientInfo × List PatientInfo :=
  let target := b.patientId.getD actor.id
  if ¬ (actor.id = target) ∧ ¬ (actor.role.isStaff = true) then
    (.error .forbidden, store)
  else
    match findPatientInfo store target with
    | some _ => (.error .conflict, store)
    | none =>
      let info : PatientInfo :=
        { patientId := target, age := b.age, gender := b.gender,
          address := b.address, bloodType := b.bloodType,
          medicalHistory := b.medicalHistory, allergies := b.allergies,
          medications := b.medications,
          emergencyContact := b.emergencyContact, lastVisit := none }
      (.ok info, store ++ [info])

/-- The `:patientId` path parameter of the patient-info GET/PUT routes:
either the literal token `me` or a concrete user id. -/
inductive PatientParam where
  | me
  | pid (n : Nat)
deriving DecidableEq, Repr

/-- The `me`-collapse: `patientId === 'me' ? req.user._id : patientId`. -/
def resolveParam (actor : Actor) : PatientParam → Nat
  | .me => actor.id
  | .pid n => n

/-- PUT /api/users/patient-info/:patientId (lines 222-269): owner-or-staff
gate; upsert (`new PatientInfo({ patientId })` when absent); the eight
listed fields are applied when `!== undefined`; `lastVisit` is set to the
server time `now` exactly when the body carries the `updateLastVisit`
flag. -/
def updatePatientInfo (actor : Actor) (store : List PatientInfo)
    (param : PatientParam) (b : PatientInfoBody) (now : Nat) :
    Except Err PatientInfo × List PatientInfo :=
  let target := resolveParam actor param
  if ¬ (actor.id = target) ∧ ¬ (actor.role.isStaff = true) then
    (.error .forbidden, store)
  else
    let existing := findPatientInfo store target
    let base : PatientInfo :=
      match existing with
      | some p => p
      | none => emptyPatientInfo target
    let updated : PatientInfo :=
      { base with
        age := match b.age with | some v => some v | none => base.age,
        gender := match b.gender with | some v => some v | none => base.gender,
        address :=
          match b.address with | some v => some v | none => base.address,
        bloodType :=
          match b.bloodType with | some v => some v | none => base.bloodType,
        medicalHistory := match b.medicalHistory with
          | some v => some v
          | none => base.medicalHistory,
        allergies :=
          match b.allergies with | some v => some v | none => base.allergies,
        medications := match b.medications with
          | some v => some v
          | none => base.medications,
        emergencyContact := match b.emergencyContact with
          | some v => some v
          | none => base.emergencyContact,
        lastVisit := if b.updateLastVisit then some now else base.lastVisit }
    match existing with
    | some _ =>
      (.ok updated,
        store.map (fun p => if p.patientId = target then updated else p))
    | none => (.ok updated, store ++ [updated])

/-! ## Dashboard aggregation (src/routes/dashboard.js) -/

/-- The MongoDB pipeline of GET /api/dashboard/overview (lines 42-45):
`$match` on completed payments, `$group` with `$sum: amount`.  An
aggregation over an empty match yields no group at all, hence the
`Option`. -/
def totalRevenueAgg (ps : List Payment) : Option ℚ :=
  match ps.filter (fun p => p.status == PayStatus.completed) with
  | [] => none
  | l => some ((l.map (fun p => p.amount)).sum)

/-- The handler's `totalRevenue[0]?.total || 0` (line 52): the group sum
when one exists, the number `0` otherwise. -/
def dashboardTotalRevenue (ps : List Payment) : ℚ :=
  (totalRevenueAgg ps).getD 0

/-! ## Route-level authorization decisions

`authorize` is the role-gate middleware.  `authDecision` transcribes, per
route, the authorization gate the handler applies (role checks and
ownership checks only; business validation such as working hours is
covered by the handler embeddings above).  `owner` is the ownership id the
route compares against: the target document's `user`/`patientId` field or
the `:userId`/`:id` path parameter of user-scoped routes. -/

/-- Modelled from the spec: the role-gate middleware `authorize(...roles)`
lives in middleware/auth.js, which is not among the source files (only its
callers are).  Per the spec's authorization policy and the routes' access
annotations, it admits exactly the actors whose role is among the listed
roles and rejects every other actor with Forbidden. -/
def authorize (roles : List Role) (a : Actor) : Bool :=
  decide (a.role ∈ roles)

/-- One constructor per route covered by the embedding. -/
inductive Op where
  | apptList
  | apptGet
  | apptGetUser
  | apptCreate
  | apptUpdate
  | apptDelete
  | serviceList
  | serviceListActive
  | serviceGet
  | serviceCreate
  | serviceEdit
  | serviceDelete
  | payList
  | payGet
  | payGetUser
  | payCreate
  | payUpdateStatus
  | remList
  | remGetUser
  | remCreate
  | remMarkRead
  | remDelete
  | userList
  | userGet
  | userUpdate
  | userDelete
  | infoGet
  | infoCreate
  | infoUpdate
  | dashOverview
  | dashToday
  | dashPatients
deriving DecidableEq, Repr

/-- Per-route authorization gate, transcribed from each handler:
`apptDelete` and `remMarkRead` compare ids only (no role escape hatch);
`serviceCreate`/`serviceEdit`/`serviceDelete` call `authorize('doctor')`;
`payList` calls `authorize('doctor', /*'assistant'*/)` — the assistant role
is commented out in the source — and `payGetUser` likewise checks
membership in `['doctor', /*'assistant'*/]`; `userList` has its whole auth
chain commented out. -/
def authDecision (op : Op) (a : Actor) (owner : Nat) : Bool :=
  match op with
  | .apptList => true
  | .apptGet => decide (¬ (a.role = .patient ∧ owner ≠ a.id))
  | .apptGetUser => decide (¬ (a.id ≠ owner ∧ ¬ (a.role.isStaff = true)))
  | .apptCreate => true
  | .apptUpdate => decide (¬ (¬ (a.role.isStaff = true) ∧ owner ≠ a.id))
  | .apptDelete => decide (owner = a.id)
  | .serviceList => true
  | .serviceListActive => true
  | .serviceGet => true
  | .serviceCreate => authorize [.doctor] a
  | .serviceEdit => authorize [.doctor] a
  | .serviceDelete => authorize [.doctor] a
  | .payList => authorize [.doctor] a
  | .payGet => decide (¬ (owner ≠ a.id ∧ ¬ (a.role.isStaff = true)))
  | .payGetUser => decide (¬ (a.id ≠ owner ∧ ¬ (a.role = .doctor)))
  | .payCreate => true
  | .payUpdateStatus => authorize [.doctor, .assistant] a
  | .remList => authorize [.doctor, .assistant] a
  | .remGetUser => decide (¬ (a.id ≠ owner ∧ ¬ (a.role.isStaff = true)))
  | .remCreate => authorize [.doctor, .assistant] a
  | .remMarkRead => decide (owner = a.id)
  | .remDelete => decide (¬ (owner ≠ a.id ∧ ¬ (a.role.isStaff = true)))
  | .userList => true
  | .userGet => true
  | .userUpdate => decide (¬ (a.id ≠ owner ∧ ¬ (a.role.isStaff = true)))
  | .userDelete => decide (¬ (a.id ≠ owner ∧ ¬ (a.role.isStaff = true)))
  | .infoGet => decide (¬ (a.id ≠ owner ∧ ¬ (a.role.isStaff = true)))
  | .infoCreate => decide (¬ (a.id ≠ owner ∧ ¬ (a.role.isStaff = true)))
  | .infoUpdate => decide (¬ (a.id ≠ owner ∧ ¬ (a.role.isStaff = true)))
  | .dashOverview => authorize [.doctor, .assistant] a
  | .dashToday => authorize [.doctor, .assistant] a
  | .dashPatients => authorize [.doctor, .assistant] a

end DentistServer

namespace DentistServer

/-- C1: the temporal validity check accepts a timestamp exactly when its
wall-clock day-of-week is Saturday, Sunday, Monday, Tuesday or Wednesday
(`getDay` in {6,0,1,2,3}) and its wall-clock hour satisfies 8 ≤ h < 18;
otherwise it fails with `invalidSchedule`.  This single check is the one
invoked at appointment creation and on every update that supplies a date. -/
theorem checkWorkingHours_valid_iff (d : JSDate) :
    checkWorkingHours d =
      (if d.getDay ∈ workingDays ∧ 8 ≤ d.getHours ∧ d.getHours < 18 then
        Except.ok ()
      else
        Except.error Err.invalidSchedule) := by
  unfold checkWorkingHours
  split_ifs <;> first
    | rfl
    | (exfalso; simp_all [workingDays]; omega)
    | (exfalso; simp_all [workingDays])

/-- C9: the dashboard overview's total revenue equals the exact sum of
`amount` over the payments whose status is `completed`, and is the number
`0` (the `getD 0` of an absent aggregation group, never null/undefined)
when no completed payment exists, since the sum over the empty filter is
`0`. -/
theorem dashboardTotalRevenue_eq_completed_sum (ps : List Payment) :
    dashboardTotalRevenue ps =
      ((ps.filter (fun p => p.status == PayStatus.completed)).map
        (fun p => p.amount)).sum := by
  unfold dashboardTotalRevenue totalRevenueAgg
  cases h : ps.filter (fun p => p.status == PayStatus.completed) with
  | nil => simp
  | cons x xs => simp

/-- C4: a create of an appointment or of a payment by a patient actor
always persists the creating actor's id in the `user` field, whatever
`user` the request body carried (anti-impersonation forcing at
POST /api/appointments and POST /api/payments). -/
theorem patient_create_forces_caller_id (actor : Actor)
    (raw : RawAppointmentBody) (praw : RawPaymentBody)
    (services : List Service) (a : Appointment) (p : Payment)
    (hrole : actor.role = Role.patient)
    (ha : postAppointment actor raw services = Except.ok a)
    (hp : postPayment actor praw = Except.ok p) :
    a.user = actor.id ∧ p.user = actor.id := by
  constructor
  · unfold postAppointment at ha
    cases hv : validateAppointment raw with
    | none => rw [hv] at ha; exact absurd ha (by simp)
    | some b =>
      rw [hv] at ha
      simp only [hrole, if_pos] at ha
      cases hf : findService services { b with user := actor.id }.service with
      | none => rw [hf] at ha; exact absurd ha (by simp)
      | some s =>
        rw [hf] at ha
        dsimp only at ha
        by_cases hact : s.isActive = false
        · rw [if_pos hact] at ha; exact absurd ha (by simp)
        · rw [if_neg hact] at ha
          cases hw : checkWorkingHours { b with user := actor.id }.date with
          | error e => rw [hw] at ha; exact absurd ha (by simp)
          | ok u =>
            rw [hw] at ha
            simp only [Except.ok.injEq] at ha
            rw [← ha]
  · unfold postPayment at hp
    cases hv : validatePayment praw with
    | none => rw [hv] at hp; exact absurd hp (by simp)
    | some b =>
      rw [hv] at hp
      simp only [hrole, if_pos] at hp
      simp only [Except.ok.injEq] at hp
      rw [← hp]

/-- Witness for C4: patient 1 creates an appointment and a payment whose
bodies both claim `user = 2`; the stored records are owned by 1. -/
theorem patient_create_forces_caller_id_witness :
    (⟨1, 3, ⟨6, 9⟩, AppStatus.scheduled, "", 10⟩ : Appointment).user = 1 ∧
    (⟨1, 5, 30, PayStatus.pending, ""⟩ : Payment).user = 1 :=
  patient_create_forces_caller_id ⟨1, Role.patient⟩
    ⟨some 2, some 3, some ⟨6, 9⟩, some 10, none, none⟩
    ⟨some 2, some 5, some 30, none, none⟩
    [⟨10, "Cleaning", "", 30, 50, true⟩]
    ⟨1, 3, ⟨6, 9⟩, AppStatus.scheduled, "", 10⟩
    ⟨1, 5, 30, PayStatus.pending, ""⟩
    rfl rfl rfl

/-- C3: a patient updating their own appointment with a patch whose
`status` differs from the stored status is rejected with Forbidden and the
collection is returned unchanged; a staff actor (doctor or assistant)
issuing the identical patch succeeds (given the patch's service/date pass
their checks, which the identical successful staff update presupposes). -/
theorem patient_status_change_forbidden_staff_ok
    (actor staff : Actor) (appts : List (Nat × Appointment)) (id : Nat)
    (raw : RawAppointmentBody) (services : List Service)
    (b : AppointmentBody) (appt : Appointment)
    (hval : validateAppointment raw = some b)
    (hfind : appts.find? (fun p => p.1 == id) = some (id, appt))
    (hrole : actor.role = Role.patient)
    (howner : appt.user = actor.id)
    (hsome : b.status.isSome = true)
    (hdiff : b.status ≠ some appt.status)
    (hstaff : staff.role.isStaff = true)
    (hsvc : putServiceCheck appt b services = Except.ok ())
    (hdate : checkWorkingHours b.date = Except.ok ()) :
    putAppointment actor appts id raw services =
      (Except.error Err.forbidden, appts) ∧
    (putAppointment staff appts id raw services).1 =
      Except.ok (applyAssign appt b) := by
  constructor
  · unfold putAppointment
    rw [hval, hfind]
    dsimp only
    have h1 : ¬ (¬ (actor.role = Role.doctor ∨ actor.role = Role.assistant) ∧
        ¬ (appt.user = actor.id)) := by
      intro hc
      exact hc.2 howner
    rw [if_neg h1]
    have h2 : actor.role = Role.patient ∧ b.status.isSome = true ∧
        b.status ≠ some appt.status := ⟨hrole, hsome, hdiff⟩
    rw [if_pos h2]
  · unfold putAppointment
    rw [hval, hfind]
    dsimp only
    have hsr : staff.role = Role.doctor ∨ staff.role = Role.assistant := by
      cases hs : staff.role <;> simp_all [Role.isStaff]
    have h1 : ¬ (¬ (staff.role = Role.doctor ∨ staff.role = Role.assistant) ∧
        ¬ (appt.user = staff.id)) := by
      intro hc
      exact hc.1 hsr
    rw [if_neg h1]
    have h2 : ¬ (staff.role = Role.patient ∧ b.status.isSome = true ∧
        b.status ≠ some appt.status) := by
      intro hc
      rcases hsr with hs | hs <;> rw [hs] at hc <;> exact absurd hc.1 (by simp)
    rw [if_neg h2]
    rw [hsvc, hdate]

/-- Witness for C3: patient 1 tries to mark their scheduled appointment
`completed` and is refused; doctor 7 performs the identical update and it
goes through. -/
theorem patient_status_change_forbidden_staff_ok_witness :
    putAppointment ⟨1, Role.patient⟩
        [(5, ⟨1, 3, ⟨6, 9⟩, AppStatus.scheduled, "", 10⟩)] 5
        ⟨some 1, some 3, some ⟨6, 9⟩, some 10, some AppStatus.completed, none⟩
        [⟨10, "Cleaning", "", 30, 50, true⟩] =
      (Except.error Err.forbidden,
        [(5, ⟨1, 3, ⟨6, 9⟩, AppStatus.scheduled, "", 10⟩)]) ∧
    (putAppointment ⟨7, Role.doctor⟩
        [(5, ⟨1, 3, ⟨6, 9⟩, AppStatus.scheduled, "", 10⟩)] 5
        ⟨some 1, some 3, some ⟨6, 9⟩, some 10, some AppStatus.completed, none⟩
        [⟨10, "Cleaning", "", 30, 50, true⟩]).1 =
      Except.ok (applyAssign ⟨1, 3, ⟨6, 9⟩, AppStatus.scheduled, "", 10⟩
        ⟨1, 3, ⟨6, 9⟩, 10, some AppStatus.completed, none⟩) :=
  patient_status_change_forbidden_staff_ok
    ⟨1, Role.patient⟩ ⟨7, Role.doctor⟩
    [(5, ⟨1, 3, ⟨6, 9⟩, AppStatus.scheduled, "", 10⟩)] 5
    ⟨some 1, some 3, some ⟨6, 9⟩, some 10, some AppStatus.completed, none⟩
    [⟨10, "Cleaning", "", 30, 50, true⟩]
    ⟨1, 3, ⟨6, 9⟩, 10, some AppStatus.completed, none⟩
    ⟨1, 3, ⟨6, 9⟩, AppStatus.scheduled, "", 10⟩
    rfl rfl rfl rfl rfl (by simp) rfl rfl rfl

/-- C10: the update path applies no anti-impersonation forcing: when the
authorization and validity checks pass, the persisted appointment's `user`
is exactly the patch's `user`, so an owning patient (or staff) can hand the
appointment to any user id. -/
theorem update_does_not_force_user
    (actor : Actor) (appts : List (Nat × Appointment)) (id : Nat)
    (raw : RawAppointmentBody) (services : List Service)
    (b : AppointmentBody) (appt : Appointment)
    (hval : validateAppointment raw = some b)
    (hfind : appts.find? (fun p => p.1 == id) = some (id, appt))
    (hauth : appt.user = actor.id ∨ actor.role.isStaff = true)
    (hstatus : actor.role = Role.patient →
      b.status = none ∨ b.status = some appt.status)
    (hsvc : putServiceCheck appt b services = Except.ok ())
    (hdate : checkWorkingHours b.date = Except.ok ()) :
    (putAppointment actor appts id raw services).1 =
      Except.ok (applyAssign appt b) ∧
    (applyAssign appt b).user = b.user := by
  refine ⟨?_, rfl⟩
  unfold putAppointment
  rw [hval, hfind]
  dsimp only
  have h1 : ¬ (¬ (actor.role = Role.doctor ∨ actor.role = Role.assistant) ∧
      ¬ (appt.user = actor.id)) := by
    intro hc
    rcases hauth with ho | hs
    · exact hc.2 ho
    · cases hr : actor.role <;> simp_all [Role.isStaff]
  rw [if_neg h1]
  have h2 : ¬ (actor.role = Role.patient ∧ b.status.isSome = true ∧
      b.status ≠ some appt.status) := by
    intro hc
    rcases hstatus hc.1 with hn | he
    · rw [hn] at hc
      exact absurd hc.2.1 (by simp)
    · exact hc.2.2 he
  rw [if_neg h2]
  rw [hsvc, hdate]

/-- Witness for C10: patient 1 owns appointment 5 and submits an update
with `user = 2`; the persisted record is owned by 2. -/
theorem update_does_not_force_user_witness :
    (putAppointment ⟨1, Role.patient⟩
        [(5, ⟨1, 3, ⟨6, 9⟩, AppStatus.scheduled, "", 10⟩)] 5
        ⟨some 2, some 3, some ⟨6, 9⟩, some 10, none, none⟩
        [⟨10, "Cleaning", "", 30, 50, true⟩]).1 =
      Except.ok (applyAssign ⟨1, 3, ⟨6, 9⟩, AppStatus.scheduled, "", 10⟩
        ⟨2, 3, ⟨6, 9⟩, 10, none, none⟩) ∧
    (applyAssign ⟨1, 3, ⟨6, 9⟩, AppStatus.scheduled, "", 10⟩
        ⟨2, 3, ⟨6, 9⟩, 10, none, none⟩).user = 2 :=
  update_does_not_force_user ⟨1, Role.patient⟩
    [(5, ⟨1, 3, ⟨6, 9⟩, AppStatus.scheduled, "", 10⟩)] 5
    ⟨some 2, some 3, some ⟨6, 9⟩, some 10, none, none⟩
    [⟨10, "Cleaning", "", 30, 50, true⟩]
    ⟨2, 3, ⟨6, 9⟩, 10, none, none⟩
    ⟨1, 3, ⟨6, 9⟩, AppStatus.scheduled, "", 10⟩
    rfl rfl (Or.inl rfl) (fun _ => Or.inl rfl) rfl rfl

/-- Counterexample to C5 as stated: an update by the owning patient whose
patch omits `date` (all other fields present and valid, so nothing else
could fail) is rejected as malformed with a validation error, not applied
— `validateAppointment` marks only `status` and `notes` `.optional()`. -/
theorem update_partial_patch_cex :
    putAppointment ⟨1, Role.patient⟩
        [(5, ⟨1, 3, ⟨6, 9⟩, AppStatus.scheduled, "", 10⟩)] 5
        ⟨some 1, some 3, none, some 10, none, none⟩
        [⟨10, "Cleaning", "", 30, 50, true⟩] =
      (Except.error Err.validationFailed,
        [(5, ⟨1, 3, ⟨6, 9⟩, AppStatus.scheduled, "", 10⟩)]) := rfl

/-- C5 (amended): on the update path, only fields present in the patch are
applied and each absent optional field (`status`, `notes`) independently
keeps its prior value, also in mixed patches where the other one is
supplied; but `user`, `doctor`, `date` and `service` are required on every
update request — a patch omitting any of them is rejected as malformed
(`validationFailed`) rather than accepted, while a patch carrying all four
passes validation even with `status` and `notes` absent. -/
theorem update_partial_patch_amended :
    (∀ (actor : Actor) (appts : List (Nat × Appointment)) (id : Nat)
        (raw : RawAppointmentBody) (services : List Service),
      raw.user = none ∨ raw.doctor = none ∨ raw.date = none ∨
          raw.service = none →
      putAppointment actor appts id raw services =
        (Except.error Err.validationFailed, appts)) ∧
    (∀ (raw : RawAppointmentBody) (u doc : Nat) (dt : JSDate) (sv : Nat),
      raw.user = some u → raw.doctor = some doc → raw.date = some dt →
      raw.service = some sv →
      validateAppointment raw =
        some { user := u, doctor := doc, date := dt, service := sv,
               status := raw.status, notes := raw.notes }) ∧
    (∀ (appt : Appointment) (b : AppointmentBody),
      (applyAssign appt b).user = b.user ∧
      (applyAssign appt b).doctor = b.doctor ∧
      (applyAssign appt b).date = b.date ∧
      (applyAssign appt b).service = b.service ∧
      (b.status = none → (applyAssign appt b).status = appt.status) ∧
      (b.notes = none → (applyAssign appt b).notes = appt.notes)) := by
  refine ⟨?_, ?_, ?_⟩
  · intro actor appts id raw services h
    rcases raw with ⟨u, doc, dt, sv, st, nt⟩
    cases u <;> cases doc <;> cases dt <;> cases sv <;>
      simp_all [putAppointment, validateAppointment]
  · intro raw u doc dt sv hu hd ht hs
    rcases raw with ⟨u0, doc0, dt0, sv0, st, nt⟩
    simp only at hu hd ht hs
    subst hu
    subst hd
    subst ht
    subst hs
    rfl
  · intro appt b
    refine ⟨rfl, rfl, rfl, rfl, ?_, ?_⟩
    · intro hst
      simp [applyAssign, hst]
    · intro hnt
      simp [applyAssign, hnt]

/-- Witness for C5 (amended), exercising all three conjuncts at concrete
inputs: a patch missing `date` is rejected as malformed; a patch with the
four required fields and no `status`/`notes` validates; a mixed patch
supplying `status` while omitting `notes` keeps the stored notes, and one
supplying `notes` while omitting `status` keeps the stored status. -/
theorem update_partial_patch_amended_witness :
    putAppointment ⟨1, Role.patient⟩
        [(5, ⟨1, 3, ⟨6, 9⟩, AppStatus.scheduled, "note", 10⟩)] 5
        ⟨some 1, some 3, none, some 10, none, none⟩ [] =
      (Except.error Err.validationFailed,
        [(5, ⟨1, 3, ⟨6, 9⟩, AppStatus.scheduled, "note", 10⟩)]) ∧
    validateAppointment ⟨some 1, some 3, some ⟨6, 9⟩, some 10, none, none⟩ =
      some { user := 1, doctor := 3, date := ⟨6, 9⟩, service := 10,
             status := none, notes := none } ∧
    (applyAssign ⟨1, 3, ⟨0, 10⟩, AppStatus.scheduled, "note", 10⟩
        ⟨1, 3, ⟨6, 9⟩, 10, some AppStatus.completed, none⟩).notes = "note" ∧
    (applyAssign ⟨1, 3, ⟨0, 10⟩, AppStatus.scheduled, "note", 10⟩
        ⟨1, 3, ⟨6, 9⟩, 10, none, some "update"⟩).status =
      AppStatus.scheduled :=
  ⟨update_partial_patch_amended.1 ⟨1, Role.patient⟩
      [(5, ⟨1, 3, ⟨6, 9⟩, AppStatus.scheduled, "note", 10⟩)] 5
      ⟨some 1, some 3, none, some 10, none, none⟩ [] (Or.inr (Or.inr (Or.inl rfl))),
    update_partial_patch_amended.2.1
      ⟨some 1, some 3, some ⟨6, 9⟩, some 10, none, none⟩ 1 3 ⟨6, 9⟩ 10
      rfl rfl rfl rfl,
    (update_partial_patch_amended.2.2
      ⟨1, 3, ⟨0, 10⟩, AppStatus.scheduled, "note", 10⟩
      ⟨1, 3, ⟨6, 9⟩, 10, some AppStatus.completed, none⟩).2.2.2.2.2 rfl,
    (update_partial_patch_amended.2.2
      ⟨1, 3, ⟨0, 10⟩, AppStatus.scheduled, "note", 10⟩
      ⟨1, 3, ⟨6, 9⟩, 10, none, some "update"⟩).2.2.2.2.1 rfl⟩

/-- C6: creating a service whose name collides with a stored service's
name fails with Conflict, and renaming an existing service to a name held
by another service fails with Conflict; in both cases the services
collection is returned unchanged. -/
theorem service_name_uniqueness
    (actor : Actor) (store : List Service) (b b2 : ServiceBody)
    (newId id : Nat) (s t t2 : Service)
    (hrole : actor.role = Role.doctor)
    (hn : truthyStr b.name = true) (hd : truthyNat b.duration = true)
    (hp : truthyRat b.price = true)
    (hdup : findServiceByName store (b.name.getD "") = some t)
    (hfind : store.find? (fun u => u.id == id) = some s)
    (hn2 : truthyStr b2.name = true)
    (hneq : b2.name ≠ some s.name)
    (hdup2 : findServiceByName store (b2.name.getD "") = some t2) :
    createService actor store b newId = (Except.error Err.conflict, store) ∧
    editService actor store id b2 = (Except.error Err.conflict, store) := by
  constructor
  · unfold createService
    rw [if_neg (by rw [hrole]; exact fun hc => hc rfl)]
    rw [if_neg (by rw [hn, hd, hp]; simp)]
    rw [hdup]
  · unfold editService
    rw [if_neg (by rw [hrole]; exact fun hc => hc rfl)]
    rw [hfind]
    dsimp only
    rw [if_pos ⟨hn2, hneq⟩]
    rw [hdup2]

/-- Witness for C6: with services "Cleaning" (id 10) and "Whitening"
(id 11) stored, creating a second "Cleaning" is refused and renaming
"Whitening" to "Cleaning" is refused, both leaving the store unchanged. -/
theorem service_name_uniqueness_witness :
    createService ⟨7, Role.doctor⟩
        [⟨10, "Cleaning", "", 30, 50, true⟩,
         ⟨11, "Whitening", "", 45, 80, true⟩]
        ⟨some "Cleaning", none, some 30, some 50, none⟩ 12 =
      (Except.error Err.conflict,
        [⟨10, "Cleaning", "", 30, 50, true⟩,
         ⟨11, "Whitening", "", 45, 80, true⟩]) ∧
    editService ⟨7, Role.doctor⟩
        [⟨10, "Cleaning", "", 30, 50, true⟩,
         ⟨11, "Whitening", "", 45, 80, true⟩] 11
        ⟨some "Cleaning", none, none, none, none⟩ =
      (Except.error Err.conflict,
        [⟨10, "Cleaning", "", 30, 50, true⟩,
         ⟨11, "Whitening", "", 45, 80, true⟩]) :=
  service_name_uniqueness ⟨7, Role.doctor⟩
    [⟨10, "Cleaning", "", 30, 50, true⟩,
     ⟨11, "Whitening", "", 45, 80, true⟩]
    ⟨some "Cleaning", none, some 30, some 50, none⟩
    ⟨some "Cleaning", none, none, none, none⟩ 12 11
    ⟨11, "Whitening", "", 45, 80, true⟩
    ⟨10, "Cleaning", "", 30, 50, true⟩
    ⟨10, "Cleaning", "", 30, 50, true⟩
    rfl rfl rfl rfl rfl rfl rfl (by simp) rfl

/-- C7: a strict PatientInfo create for a patient who already has a record
fails with Conflict and leaves the collection unchanged; a PatientInfo
update for a patient with no record succeeds by creating one (upsert), and
the created record belongs to the resolved target patient. -/
theorem patientinfo_create_conflict_update_upserts
    (actor : Actor) (store1 store2 : List PatientInfo)
    (b b2 : PatientInfoBody) (param : PatientParam) (now : Nat)
    (p : PatientInfo)
    (hauth1 : actor.id = b.patientId.getD actor.id ∨ actor.role.isStaff = true)
    (hdup : findPatientInfo store1 (b.patientId.getD actor.id) = some p)
    (hauth2 : actor.id = resolveParam actor param ∨ actor.role.isStaff = true)
    (hmiss : findPatientInfo store2 (resolveParam actor param) = none) :
    createPatientInfo actor store1 b = (Except.error Err.conflict, store1) ∧
    ∃ q, updatePatientInfo actor store2 param b2 now =
        (Except.ok q, store2 ++ [q]) ∧
      q.patientId = resolveParam actor param := by
  constructor
  · unfold createPatientInfo
    rw [if_neg (by intro hc; rcases hauth1 with h | h
                   · exact hc.1 h
                   · exact hc.2 h)]
    rw [hdup]
  · unfold updatePatientInfo
    rw [if_neg (by intro hc; rcases hauth2 with h | h
                   · exact hc.1 h
                   · exact hc.2 h)]
    rw [hmiss]
    dsimp only
    exact ⟨_, rfl, rfl⟩

/-- Witness for C7: patient 1 already has a record, so doctor 7's second
create for them conflicts; patient 2 has no record, so doctor 7's update
for them creates one owned by 2. -/
theorem patientinfo_create_conflict_update_upserts_witness :
    createPatientInfo ⟨7, Role.doctor⟩ [emptyPatientInfo 1]
        ⟨some 1, some 30, none, none, none, none, none, none, none,
          false, none⟩ =
      (Except.error Err.conflict, [emptyPatientInfo 1]) ∧
    ∃ q, updatePatientInfo ⟨7, Role.doctor⟩ [emptyPatientInfo 1]
        (PatientParam.pid 2)
        ⟨some 1, some 30, none, none, none, none, none, none, none,
          false, none⟩ 100 =
        (Except.ok q, [emptyPatientInfo 1] ++ [q]) ∧
      q.patientId = resolveParam ⟨7, Role.doctor⟩ (PatientParam.pid 2) :=
  patientinfo_create_conflict_update_upserts
    ⟨7, Role.doctor⟩ [emptyPatientInfo 1] [emptyPatientInfo 1]
    ⟨some 1, some 30, none, none, none, none, none, none, none, false, none⟩
    ⟨some 1, some 30, none, none, none, none, none, none, none, false, none⟩
    (PatientParam.pid 2) 100 (emptyPatientInfo 1)
    (Or.inr rfl) rfl (Or.inr rfl) rfl

/-- C8: on the PatientInfo update path, the stored `lastVisit` becomes the
server time `now` exactly when the request carries the `updateLastVisit`
flag and otherwise keeps its prior value (or the `null` default on
upsert); and the handler's result is entirely independent of any literal
`lastVisit` value in the request body. -/
theorem lastVisit_only_via_flag
    (actor : Actor) (store : List PatientInfo) (param : PatientParam)
    (b : PatientInfoBody) (now : Nat) (v : Option Nat) (q : PatientInfo)
    (hok : (updatePatientInfo actor store param b now).1 = Except.ok q) :
    q.lastVisit = (if b.updateLastVisit = true then some now
      else match findPatientInfo store (resolveParam actor param) with
           | some p => p.lastVisit
           | none => none) ∧
    updatePatientInfo actor store param { b with lastVisit := v } now =
      updatePatientInfo actor store param b now := by
  refine ⟨?_, rfl⟩
  unfold updatePatientInfo at hok
  by_cases hg : ¬ (actor.id = resolveParam actor param) ∧
      ¬ (actor.role.isStaff = true)
  · rw [if_pos hg] at hok
    exact absurd hok (by simp)
  · rw [if_neg hg] at hok
    cases hf : findPatientInfo store (resolveParam actor param) with
    | some p =>
      rw [hf] at hok
      dsimp only at hok
      simp only [Except.ok.injEq] at hok
      rw [← hok]
    | none =>
      rw [hf] at hok
      dsimp only at hok
      simp only [Except.ok.injEq] at hok
      rw [← hok]
      simp [emptyPatientInfo]

/-- Witness for C8: patient 1 upserts their own record with
`updateLastVisit` set and a literal `lastVisit = 999` in the body; the
stored value is the server time 42, and dropping the literal value from
the body changes nothing about the handler's outcome. -/
theorem lastVisit_only_via_flag_witness :
    (⟨1, none, none, none, none, none, none, none, none,
        some 42⟩ : PatientInfo).lastVisit =
      (if (⟨none, none, none, none, none, none, none, none, none, true,
            some 999⟩ : PatientInfoBody).updateLastVisit = true then some 42
       else match findPatientInfo []
              (resolveParam ⟨1, Role.patient⟩ PatientParam.me) with
            | some p => p.lastVisit
            | none => none) ∧
    updatePatientInfo ⟨1, Role.patient⟩ [] PatientParam.me
        ⟨none, none, none, none, none, none, none, none, none, true,
          none⟩ 42 =
      updatePatientInfo ⟨1, Role.patient⟩ [] PatientParam.me
        ⟨none, none, none, none, none, none, none, none, none, true,
          some 999⟩ 42 :=
  lastVisit_only_via_flag ⟨1, Role.patient⟩ [] PatientParam.me
    ⟨none, none, none, none, none, none, none, none, none, true, some 999⟩
    42 none
    ⟨1, none, none, none, none, none, none, none, none, some 42⟩ rfl

/-- Counterexample to C2 as stated: staff are not allowed every operation
short of appointment cancellation — an assistant is refused service
creation and the payments listing (both gates list only `doctor`), and
even a doctor is refused marking another user's reminder read (addressee
id equality, no role escape). -/
theorem staff_allowed_everything_cex :
    authDecision Op.serviceCreate ⟨1, Role.assistant⟩ 2 = false ∧
    authDecision Op.payList ⟨1, Role.assistant⟩ 2 = false ∧
    authDecision Op.remMarkRead ⟨1, Role.doctor⟩ 2 = false := by
  decide

/-- C2 (amended): a staff actor (doctor or assistant) is allowed every
covered operation regardless of ownership, except that (a) appointment
cancellation and reminder mark-read require the actor to be the owning
user, (b) service create/edit/delete and the global payments listing are
doctor-only, and (c) listing another user's payments is doctor-only. -/
theorem staff_allowed_amended (a : Actor) (owner : Nat) (op : Op)
    (h : a.role.isStaff = true) :
    authDecision op a owner = true ↔
      ((op = Op.apptDelete ∨ op = Op.remMarkRead) → owner = a.id) ∧
      ((op = Op.serviceCreate ∨ op = Op.serviceEdit ∨
          op = Op.serviceDelete ∨ op = Op.payList) →
        a.role = Role.doctor) ∧
      (op = Op.payGetUser → (a.id = owner ∨ a.role = Role.doctor)) := by
  rcases a with ⟨i, r⟩
  cases r
  · exact absurd h (by simp [Role.isStaff])
  · cases op <;> simp [authDecision, authorize, Role.isStaff]
  · cases op <;> simp [authDecision, authorize, Role.isStaff]

/-- Witness for C2 (amended): for doctor 3 and a resource owned by user 9,
the amended rule evaluated at the service-creation operation. -/
theorem staff_allowed_amended_witness :
    Role.isStaff Role.doctor = true ∧
    (authDecision Op.serviceCreate ⟨3, Role.doctor⟩ 9 = true ↔
      ((Op.serviceCreate = Op.apptDelete ∨ Op.serviceCreate = Op.remMarkRead) →
        (9 : Nat) = 3) ∧
      ((Op.serviceCreate = Op.serviceCreate ∨ Op.serviceCreate = Op.serviceEdit ∨
          Op.serviceCreate = Op.serviceDelete ∨ Op.serviceCreate = Op.payList) →
        Role.doctor = Role.doctor) ∧
      (Op.serviceCreate = Op.payGetUser →
        ((3 : Nat) = 9 ∨ Role.doctor = Role.doctor))) :=
  ⟨rfl, staff_allowed_amended ⟨3, Role.doctor⟩ 9 Op.serviceCreate rfl⟩

end DentistServer
